import Mathlib

/-!
Shallow embedding of the wazzup bookmarks service: the sequelize model
declaration (src/unnamed/part_000), the express router with its four
handlers and the two helper functions (src/unnamed/part_001), and the
validate.js constraint set for the link attribute
(src/src/validators/bookmarks.js).

JavaScript conventions used throughout the embedding:
- `undefined` is `Option.none`;
- a JS object used as a string-keyed mapping is an association list in
  iteration order;
- an async function returning a promise is a `JSPromise` recording the
  value the promise resolves to;
- where JS truthiness decides a branch, a dedicated function named after
  the value class (array, promise, string option) computes it.
-/

/-! ## Data model (src/unnamed/part_000) -/

/-- A persisted bookmarks row, one field per column of the sequelize
model definition. `updatedAt` and `description` allow null. -/
structure Bookmark where
  guid : String
  link : String
  createdAt : Int
  updatedAt : Option Int
  description : Option String
  favorites : Bool
deriving DecidableEq

/-- The model module state: part_000 imports uuid/v4 and evaluates
`uuid()` ONCE, when the module body runs; that single string is the
`defaultValue` of the guid column for every subsequent insert. -/
structure BookmarksSchema where
  moduleLoadUuid : String
deriving DecidableEq

/-- The guid default applied by the schema: the fixed module-load value
(`defaultValue: uuid()` stores the result of one call, not a generator). -/
def guidDefault (schema : BookmarksSchema) : String :=
  schema.moduleLoadUuid

/-- Column names of the bookmarks table. -/
def bookmarkColumns : List String :=
  ["guid", "link", "createdAt", "updatedAt", "description", "favorites"]

/-! ## Query splitter (src/unnamed/part_001, explodeRequestQuery) -/

/-- Keys of the module-level `defaultQueryParams` object; these are what
`defaultQueryParams.hasOwnProperty(key)` recognises. The set of keys never
changes (only the values can be overwritten, see `objectAssign`). -/
def defaultQueryParamKeys : List String :=
  ["limit", "offset", "sort_by", "sort_dir"]

/-- Result object of `explodeRequestQuery`: `query` is the control bucket
(the source calls it `queryParams`), `whereClause` the filter bucket (the
source field is named `where`, a reserved word in Lean). -/
structure ExplodedQuery where
  query : List (String × String)
  whereClause : List (String × String)
deriving DecidableEq

/-- `explodeRequestQuery` from the router. The for-of loop over
`Object.entries(obj)` puts the pair into `queryParams` when
`defaultQueryParams` has the key and into `whereClause` otherwise, but the
`return` statement sits inside the loop body, so the function returns right
after the first pair; on an empty mapping the loop body never runs, the
function falls off its end and returns `undefined` (`none`). -/
def explodeRequestQuery (obj : List (String × String)) : Option ExplodedQuery :=
  match obj with
  | [] => none
  | (key, param) :: _rest =>
    if defaultQueryParamKeys.contains key then
      some { query := [(key, param)], whereClause := [] }
    else
      some { query := [], whereClause := [(key, param)] }

/-- C1: for every non-empty query mapping, the splitter routes only the
first key/value pair — to the control bucket when the key is one of
limit/offset/sort_by/sort_dir, to the filter bucket otherwise — and no
remaining key of the input appears in either returned bucket. -/
theorem explodeRequestQuery_first_pair_only
    (key param : String) (rest : List (String × String))
    (hnodup : (key :: rest.map Prod.fst).Nodup) :
    ∃ ex, explodeRequestQuery ((key, param) :: rest) = some ex ∧
      (defaultQueryParamKeys.contains key = true →
        ex.query = [(key, param)] ∧ ex.whereClause = []) ∧
      (defaultQueryParamKeys.contains key = false →
        ex.query = [] ∧ ex.whereClause = [(key, param)]) ∧
      ∀ k ∈ rest.map Prod.fst,
        k ∉ ex.query.map Prod.fst ∧ k ∉ ex.whereClause.map Prod.fst := by
  have hkey : key ∉ rest.map Prod.fst := by
    have := List.nodup_cons.mp hnodup
    exact this.1
  by_cases h : defaultQueryParamKeys.contains key = true
  · refine ⟨{ query := [(key, param)], whereClause := [] }, ?_, ?_, ?_, ?_⟩
    · simp only [explodeRequestQuery, h, if_true]
    · intro _; exact ⟨rfl, rfl⟩
    · intro hfalse; rw [h] at hfalse; cases hfalse
    · intro k hk
      constructor
      · simp only [List.map_cons, List.map_nil, List.mem_singleton]
        intro hkeq; subst hkeq; exact hkey hk
      · simp
  · have h' : defaultQueryParamKeys.contains key = false := by
      cases hc : defaultQueryParamKeys.contains key with
      | true => exact absurd hc h
      | false => rfl
    refine ⟨{ query := [], whereClause := [(key, param)] }, ?_, ?_, ?_, ?_⟩
    · simp only [explodeRequestQuery, h', Bool.false_eq_true, if_false]
    · intro htrue; rw [h'] at htrue; cases htrue
    · intro _; exact ⟨rfl, rfl⟩
    · intro k hk
      constructor
      · simp
      · simp only [List.map_cons, List.map_nil, List.mem_singleton]
        intro hkeq; subst hkeq; exact hkey hk

/-- Witness for C1: a concrete two-pair query, with the control key first. -/
theorem explodeRequestQuery_first_pair_only_witness :
    ∃ ex, explodeRequestQuery (("limit", "10") :: [("link", "x")]) = some ex ∧
      (defaultQueryParamKeys.contains "limit" = true →
        ex.query = [("limit", "10")] ∧ ex.whereClause = []) ∧
      (defaultQueryParamKeys.contains "limit" = false →
        ex.query = [] ∧ ex.whereClause = [("limit", "10")]) ∧
      ∀ k ∈ [("link", "x")].map Prod.fst,
        k ∉ ex.query.map Prod.fst ∧ k ∉ ex.whereClause.map Prod.fst :=
  explodeRequestQuery_first_pair_only "limit" "10" [("link", "x")] (by decide)

/-! ## Link validator (src/src/validators/bookmarks.js, run through
validate.js by the POST and PATCH handlers)

The url validator of validate.js tests the submitted string against the
dperini URL regular expression, instantiated here with the options of
`bookmarkLinkConstraints`: schemes `[".+"]`, case-insensitive flag, and
allowLocal / allowDataUrl off. The functions below transcribe that pattern
piece by piece over `List Char`. -/

/-- JS regex `\s` for the characters this service can meet (space and the
ASCII control whitespace). -/
def jsWhitespaceChar (c : Char) : Bool :=
  c = ' ' || c = '\t' || c = '\n' || c = '\r' || c = '\x0b' || c = '\x0c'

/-- JS regex `\S`. -/
def nonSpaceChar (c : Char) : Bool :=
  !jsWhitespaceChar c

/-- JS regex `.` without the s flag: anything but a line terminator. -/
def dotChar (c : Char) : Bool :=
  !(c = '\n' || c = '\r' || c.toNat = 0x2028 || c.toNat = 0x2029)

/-- Character class `[a-z¡-￿]` under the case-insensitive flag. -/
def urlHostLetter (c : Char) : Bool :=
  c.isLower || c.isUpper || (0xa1 ≤ c.toNat && c.toNat ≤ 0xffff)

/-- Character class `[a-z¡-￿0-9]` under the case-insensitive flag. -/
def urlLabelChar (c : Char) : Bool :=
  urlHostLetter c || c.isDigit

/-- Host-name label `(?:(?:[a-z¡-￿0-9]-*)*[a-z¡-￿0-9]+)`:
non-empty, first and last characters from the label class, hyphens allowed
in between. -/
def urlLabelOK : List Char → Bool
  | [] => false
  | c :: rest =>
    urlLabelChar c && (c :: rest).all (fun x => urlLabelChar x || x = '-') &&
      (match (c :: rest).getLast? with
       | some d => urlLabelChar d
       | none => false)

/-- TLD identifier `(?:[a-z¡-￿]{2,})`. -/
def urlTldOK (l : List Char) : Bool :=
  2 ≤ l.length && l.all urlHostLetter

/-- Host name: label, any number of dot-separated labels, then a mandatory
dot and TLD (allowLocal is off, so the TLD part is required). -/
def urlHostnameOK (cs : List Char) : Bool :=
  let parts := cs.splitOn '.'
  2 ≤ parts.length &&
    parts.dropLast.all urlLabelOK &&
    (match parts.getLast? with
     | some t => urlTldOK t
     | none => false)

/-- First IP octet `(?:[1-9]\d?|1\d\d|2[01]\d|22[0-3])`. -/
def ipOctet1OK : List Char → Bool
  | [a] => '1' ≤ a && a ≤ '9'
  | [a, b] => '1' ≤ a && a ≤ '9' && b.isDigit
  | [a, b, c] =>
    (a = '1' && b.isDigit && c.isDigit) ||
    (a = '2' && (b = '0' || b = '1') && c.isDigit) ||
    (a = '2' && b = '2' && '0' ≤ c && c ≤ '3')
  | _ => false

/-- Middle IP octets `(?:1?\d{1,3})`. -/
def ipOctetMidOK (l : List Char) : Bool :=
  (1 ≤ l.length && l.length ≤ 3 && l.all Char.isDigit) ||
  (l.length = 4 &&
    (match l with
     | c :: _ => c = '1'
     | [] => false) &&
    l.all Char.isDigit)

/-- Last IP octet `(?:[1-9]\d?|1\d\d|2[0-4]\d|25[0-5])`. -/
def ipOctetLastOK : List Char → Bool
  | [a] => '1' ≤ a && a ≤ '9'
  | [a, b] => '1' ≤ a && a ≤ '9' && b.isDigit
  | [a, b, c] =>
    (a = '1' && b.isDigit && c.isDigit) ||
    (a = '2' && '0' ≤ b && b ≤ '4' && c.isDigit) ||
    (a = '2' && b = '5' && '0' ≤ c && c ≤ '5')
  | _ => false

/-- The four dotted octets of the IP alternative. -/
def ipOctetsOK (cs : List Char) : Bool :=
  match cs.splitOn '.' with
  | [p1, p2, p3, p4] =>
    ipOctet1OK p1 && ipOctetMidOK p2 && ipOctetMidOK p3 && ipOctetLastOK p4
  | _ => false

/-- Does `(?:\.\d{1,3}){n}` match a prefix of the input (existentially over
the group widths, as regex backtracking would)? -/
def dotDigitsGroups : Nat → List Char → Bool
  | 0, _ => true
  | n + 1, cs =>
    match cs with
    | '.' :: rest =>
      (match rest with
       | a :: r1 =>
         a.isDigit &&
           (dotDigitsGroups n r1 ||
            (match r1 with
             | b :: r2 =>
               b.isDigit &&
                 (dotDigitsGroups n r2 ||
                  (match r2 with
                   | c :: r3 => c.isDigit && dotDigitsGroups n r3
                   | [] => false))
             | [] => false))
       | [] => false)
    | _ => false

/-- The lookahead body `172\.(?:1[6-9]|2\d|3[0-1])(?:\.\d{1,3}){2}`. -/
def privatePrefix172 (cs : List Char) : Bool :=
  match cs with
  | '1' :: '7' :: '2' :: '.' :: a :: b :: rest =>
    ((a = '1' && '6' ≤ b && b ≤ '9') ||
     (a = '2' && b.isDigit) ||
     (a = '3' && (b = '0' || b = '1'))) &&
    dotDigitsGroups 2 rest
  | _ => false

/-- The three negative lookaheads guarding the IP alternative (private and
local networks), tested against the text from the host position on. -/
def privateIpAhead (cs : List Char) : Bool :=
  (['1', '0'].isPrefixOf cs && dotDigitsGroups 3 (cs.drop 2)) ||
  (['1', '2', '7'].isPrefixOf cs && dotDigitsGroups 3 (cs.drop 3)) ||
  (['1', '6', '9', '.', '2', '5', '4'].isPrefixOf cs && dotDigitsGroups 2 (cs.drop 7)) ||
  (['1', '9', '2', '.', '1', '6', '8'].isPrefixOf cs && dotDigitsGroups 2 (cs.drop 7)) ||
  privatePrefix172 cs

/-- Characters that end the host portion: none of them belongs to a host
character class, so the regex host match always extends to the first of
these (or the end of the string). -/
def hostEndChar (c : Char) : Bool :=
  c = ':' || c = '/' || c = '?' || c = '#'

/-- Resource path `(?:[/?#]\S*)?` (with the end anchor). -/
def urlPathOK (cs : List Char) : Bool :=
  match cs with
  | [] => true
  | c :: rest => (c = '/' || c = '?' || c = '#') && rest.all nonSpaceChar

/-- Port `(?::\d{2,5})?` followed by the path and the end anchor. When the
text after the host starts with a colon the port group must match, since a
path cannot start with a colon. -/
def urlPortPathOK (cs : List Char) : Bool :=
  match cs with
  | ':' :: rest =>
    let ds := rest.takeWhile Char.isDigit
    2 ≤ ds.length && ds.length ≤ 5 && urlPathOK (rest.drop ds.length)
  | _ => urlPathOK cs

/-- Host (IP alternative under its lookaheads, or host name), then port and
path. The host consumes exactly the run of non-`hostEndChar` characters. -/
def urlHostPortPathOK (cs : List Char) : Bool :=
  let host := cs.takeWhile (fun c => !hostEndChar c)
  let rest := cs.drop host.length
  ((!privateIpAhead cs && ipOctetsOK host) || urlHostnameOK host) &&
    urlPortPathOK rest

/-- All splits pre/suf of a character list, in order. -/
def splitsList : List Char → List (List Char × List Char)
  | [] => [([], [])]
  | c :: rest => ([], c :: rest) :: (splitsList rest).map (fun p => (c :: p.1, p.2))

/-- Optional authentication `(?:\S+(?::\S*)?@)?` then host, port, path. The
group before the at sign is exactly a non-empty run of `\S` characters. -/
def urlAfterSchemeOK (cs : List Char) : Bool :=
  urlHostPortPathOK cs ||
    (splitsList cs).any (fun pq =>
      match pq.2 with
      | '@' :: rest => !pq.1.isEmpty && pq.1.all nonSpaceChar && urlHostPortPathOK rest
      | _ => false)

/-- Protocol identifier `(?:(?:.+)://)` with the scheme pattern `.+` from
the constraints: some non-empty line-terminator-free prefix followed by
`://` (existentially, as regex backtracking would). -/
def isUrlShapedChars (cs : List Char) : Bool :=
  (splitsList cs).any (fun p =>
    match p.2 with
    | ':' :: '/' :: '/' :: rest =>
      !p.1.isEmpty && p.1.all dotChar && urlAfterSchemeOK rest
    | _ => false)

/-- The whole url validator test of validate.js on a string value, under the
options of `bookmarkLinkConstraints`. -/
def isUrlShaped (s : String) : Bool :=
  isUrlShapedChars s.toList

/-- The `within` keys of the exclusion constraint. -/
def bannedLinks : List String :=
  ["http://yahoo.com", "https://yahoo.com", "http://socket.io", "https://socket.io"]

/-- An element of the error array validate.js builds for the link
attribute: the presence rule has no custom message and yields a plain
string (prettified with the attribute name), while the url and exclusion
rules carry the code/description objects of the constraints file. -/
inductive LinkErrorMsg
  | text (msg : String)
  | codeMsg (code : String) (description : String)
deriving DecidableEq

/-- Default presence message after full-message prettification. -/
def presenceMessage : String := "Link can\x27t be blank"

/-- Does an error element carry the given stable code? -/
def LinkErrorMsg.hasCode : LinkErrorMsg → String → Bool
  | .text _, _ => false
  | .codeMsg c _, code => c = code

/-- Running `validate(body, {link: bookmarkLinkConstraints})` on the link
attribute. `presence: true` with `allowEmpty` unset fails only an undefined
(or null) value, with its default message — a defined empty string passes
presence. The url and exclusion validators guard themselves with the
isDefined test only, so both run on any defined value, the empty string
included: url fails with the BOOKMARKS_INVALID_LINK object when the value
does not match the URL pattern (the empty string does not), and exclusion
fails with the BOOKMARKS_BLOCKED_DOMAIN object when the value is one of the
`within` keys. Errors keep constraint order; `none` means validation passed
(validate.js returns undefined). -/
def validateLink (link : Option String) : Option (List LinkErrorMsg) :=
  let presenceErrs : List LinkErrorMsg :=
    match link with
    | none => [.text presenceMessage]
    | some _ => []
  let urlErrs : List LinkErrorMsg :=
    match link with
    | none => []
    | some s =>
      if isUrlShaped s then []
      else [.codeMsg "BOOKMARKS_INVALID_LINK" "Link invalid"]
  let exclusionErrs : List LinkErrorMsg :=
    match link with
    | none => []
    | some s =>
      if bannedLinks.contains s then
        [.codeMsg "BOOKMARKS_BLOCKED_DOMAIN" "Link is banned"]
      else []
  match presenceErrs ++ urlErrs ++ exclusionErrs with
  | [] => none
  | e :: rest => some (e :: rest)

/-- C5 counterexample: an ABSENT link fails validation with the default
presence message only — the url and exclusion validators skip undefined
values — so no error element carries the stable code
BOOKMARKS_INVALID_LINK, contrary to the claim that an absent link fails
with that code. (A present empty string does fail with the code, as the
claim says: the url validator runs on it.) -/
theorem validateLink_absent_has_no_code :
    validateLink none = some [LinkErrorMsg.text presenceMessage] ∧
    [LinkErrorMsg.text presenceMessage].all
      (fun e => !(e.hasCode "BOOKMARKS_INVALID_LINK")) = true := by
  refine ⟨by decide, by decide⟩

/-- C5 amended: an absent link fails with the default presence message
(which carries no stable code, since the presence rule has no custom
message and the other validators skip undefined values); a present link
that fails the URL shape test — the empty string included — and is not a
banned literal fails with BOOKMARKS_INVALID_LINK; a present URL-shaped link
equal to one of the four banned literals fails with
BOOKMARKS_BLOCKED_DOMAIN; every other present URL-shaped link is
accepted. -/
theorem validateLink_cases (link : Option String) :
    (link = none →
      validateLink link = some [LinkErrorMsg.text presenceMessage]) ∧
    (∀ s, link = some s → isUrlShaped s = false →
      bannedLinks.contains s = false →
      validateLink link =
        some [LinkErrorMsg.codeMsg "BOOKMARKS_INVALID_LINK" "Link invalid"]) ∧
    (∀ s, link = some s → isUrlShaped s = true →
      bannedLinks.contains s = true →
      validateLink link =
        some [LinkErrorMsg.codeMsg "BOOKMARKS_BLOCKED_DOMAIN" "Link is banned"]) ∧
    (∀ s, link = some s → isUrlShaped s = true →
      bannedLinks.contains s = false →
      validateLink link = none) := by
  refine ⟨?_, ?_, ?_, ?_⟩
  · intro h; subst h; rfl
  · intro s h hu hb; subst h
    have hb' : s ∉ bannedLinks := by simpa using hb
    simp [validateLink, hu, hb']
  · intro s h hu hb; subst h
    have hb' : s ∈ bannedLinks := by simpa using hb
    simp [validateLink, hu, hb']
  · intro s h hu hb; subst h
    have hb' : s ∉ bannedLinks := by simpa using hb
    simp [validateLink, hu, hb']

/-- Witness for C5 amended: the empty string and one concrete link per
remaining rule, plus one accepted link. -/
theorem validateLink_cases_witness :
    validateLink (some "") =
      some [LinkErrorMsg.codeMsg "BOOKMARKS_INVALID_LINK" "Link invalid"] ∧
    validateLink (some "http://yahoo.com") =
      some [LinkErrorMsg.codeMsg "BOOKMARKS_BLOCKED_DOMAIN" "Link is banned"] ∧
    validateLink (some "https://example.com") = none ∧
    validateLink none = some [LinkErrorMsg.text presenceMessage] :=
  ⟨(validateLink_cases (some "")).2.1 "" rfl (by decide) (by decide),
   (validateLink_cases (some "http://yahoo.com")).2.2.1 "http://yahoo.com" rfl
      (by decide) (by decide),
   (validateLink_cases (some "https://example.com")).2.2.2 "https://example.com"
      rfl (by decide) (by decide),
   (validateLink_cases none).1 rfl⟩

/-! ## Promises and JS truthiness -/

/-- A JS promise, recorded with the value it resolves to. -/
structure JSPromise (α : Type) where
  resolution : α
deriving DecidableEq

/-- Every promise object is truthy in JS, whatever it resolves to. -/
def jsTruthyPromise {α : Type} (_p : JSPromise α) : Bool :=
  true

/-- Truthiness of a possibly-undefined string: undefined and the empty
string are falsy, every other string is truthy. -/
def jsTruthyOptStr : Option String → Bool
  | none => false
  | some s => s != ""

/-- An array object (here: the result of findAll, or of update, which
resolves to a one-element array) is always truthy in JS, so a guard of the
shape `if (!result)` on it can never fire. -/
def jsFalsyArray (_data : List Bookmark) : Bool :=
  false

/-! ## Existence check (src/unnamed/part_001, chechGuidExistence) -/

/-- `chechGuidExistence` from the router: an async function that awaits
`models.bookmarks.count({where: {guid}})` chained with a `.then` whose
callback maps the count to a boolean — but the async function body itself
has no return statement, so the value of the `.then` chain is discarded and
the promise the function returns resolves to `undefined` (`none`). -/
def chechGuidExistence (store : List Bookmark) (guid : String) :
    JSPromise (Option Bool) :=
  let count := store.countP (fun r => r.guid = guid)
  let thenCallback : Bool := if count = 0 then false else true
  let _ := thenCallback
  ⟨none⟩

/-- C3: for every store and identifier the promise returned by
chechGuidExistence resolves to undefined, so a caller that awaits it
receives undefined. -/
theorem chechGuidExistence_resolves_undefined
    (store : List Bookmark) (guid : String) :
    (chechGuidExistence store guid).resolution = none :=
  rfl

/-! ## Responses -/

/-- Bodies the router serialises with res.json. -/
inductive RespBody
  | listResult (length : Nat) (data : List Bookmark)
  | createResult (guid : String) (createdAt : Int)
  | okData
  | errBookmarks (msg : String)
  | errBackend (msg : String)
  | errValidation (e : LinkErrorMsg)
deriving DecidableEq

/-- One res.status(...).json(...) call. -/
structure Resp where
  status : Nat
  body : RespBody
deriving DecidableEq

/-! ## List handler (src/unnamed/part_001, router.get) -/

/-- A JS primitive as stored in the defaultQueryParams object: the initial
values mix numbers and strings, and Object.assign can overwrite a number
with a query-string value. -/
inductive JSPrim
  | int (n : Int)
  | str (s : String)
deriving DecidableEq

/-- The module-level `defaultQueryParams` object as the router file
initialises it. -/
structure QueryParams where
  limit : JSPrim
  offset : JSPrim
  sort_by : JSPrim
  sort_dir : JSPrim
deriving DecidableEq

/-- Initial value of the module-level defaults. -/
def defaultQueryParams : QueryParams :=
  { limit := .int 50, offset := .int 0,
    sort_by := .str "createdAt", sort_dir := .str "asc" }

/-- `Object.assign(defaultQueryParams, queryParams)`: writes every pair of
the control bucket onto the target object and returns the mutated target.
The bucket only ever holds keys that passed the hasOwnProperty check, so
the catch-all branch is unreachable. -/
def objectAssign (d : QueryParams) (bucket : List (String × String)) : QueryParams :=
  bucket.foldl
    (fun q kv =>
      match kv.1 with
      | "limit" => { q with limit := .str kv.2 }
      | "offset" => { q with offset := .str kv.2 }
      | "sort_by" => { q with sort_by := .str kv.2 }
      | "sort_dir" => { q with sort_dir := .str kv.2 }
      | _ => q)
    d

/-- Decimal digit run to a natural number. -/
def decNat? (l : List Char) : Option Nat :=
  match l with
  | [] => none
  | _ =>
    if l.all Char.isDigit then
      some (l.foldl (fun n c => n * 10 + (c.toNat - 48)) 0)
    else none

/-- Decimal string to a natural number. -/
def strToNat? (s : String) : Option Nat :=
  decNat? s.toList

/-- Decimal string, with an optional leading minus sign, to an integer. -/
def strToInt? (s : String) : Option Int :=
  match s.toList with
  | '-' :: rest => (decNat? rest).map (fun n => -(n : Int))
  | l => (decNat? l).map (fun n => (n : Int))

/-- Reading a limit or offset value for the query: an integer is used as
is when non-negative, a string is parsed as a decimal natural; anything
else makes the persistence call raise (handled by the catch branch). -/
def jsPrimToNat : JSPrim → Option Nat
  | .int n => if n < 0 then none else some n.toNat
  | .str s => strToNat? s

/-- A value read where a string is expected. -/
def jsPrimToStr : JSPrim → String
  | .str s => s
  | .int n => toString n

/-- Sort direction accepted by the ORM order clause. -/
inductive SortDir
  | asc
  | desc
deriving DecidableEq

/-- Parse the sort_dir value; an unrecognised direction makes the ORM
raise. -/
def parseSortDir (s : String) : Option SortDir :=
  if s = "asc" || s = "ASC" then some .asc
  else if s = "desc" || s = "DESC" then some .desc
  else none

/-- One column value comparison for the order clause (nulls first). -/
def cmpOptInt : Option Int → Option Int → Ordering
  | none, none => .eq
  | none, some _ => .lt
  | some _, none => .gt
  | some a, some b => compare a b

/-- String column allowing null, nulls first. -/
def cmpOptStr : Option String → Option String → Ordering
  | none, none => .eq
  | none, some _ => .lt
  | some _, none => .gt
  | some a, some b => compare a b

/-- Compare two rows on a named column, as the order clause does. -/
def cmpBookmarkBy (col : String) (a b : Bookmark) : Ordering :=
  match col with
  | "guid" => compare a.guid b.guid
  | "link" => compare a.link b.link
  | "createdAt" => compare a.createdAt b.createdAt
  | "updatedAt" => cmpOptInt a.updatedAt b.updatedAt
  | "description" => cmpOptStr a.description b.description
  | "favorites" => compare (cond a.favorites 1 0) (cond b.favorites (1 : Nat) 0)
  | _ => .eq

/-- Insertion into a list sorted by a boolean comparison. -/
def insertSorted (le : Bookmark → Bookmark → Bool) (b : Bookmark) :
    List Bookmark → List Bookmark
  | [] => [b]
  | c :: rest => if le b c then b :: c :: rest else c :: insertSorted le b rest

/-- Sort a result set by a boolean comparison. -/
def sortList (le : Bookmark → Bookmark → Bool) (l : List Bookmark) : List Bookmark :=
  l.foldr (insertSorted le) []

/-- Order a result set on a column in a direction. -/
def sortBookmarks (col : String) (dir : SortDir) (l : List Bookmark) : List Bookmark :=
  match dir with
  | .asc => sortList (fun a b => cmpBookmarkBy col a b ≠ .gt) l
  | .desc => sortList (fun a b => cmpBookmarkBy col b a ≠ .gt) l

/-- Equality test of one where-clause pair against a row; `none` marks a
key that is no column of the table, which makes the query raise. -/
def fieldMatches (r : Bookmark) : String → String → Option Bool
  | "guid", v => some (r.guid = v)
  | "link", v => some (r.link = v)
  | "createdAt", v => some (strToInt? v = some r.createdAt)
  | "updatedAt", v =>
    some (match r.updatedAt with
          | some t => strToInt? v = some t
          | none => false)
  | "description", v => some (r.description = some v)
  | "favorites", v =>
    some ((v = "true" && r.favorites) || (v = "false" && !r.favorites))
  | _, _ => none

/-- Every key of the where clause must be a column of the table. -/
def validWhere (wc : List (String × String)) : Bool :=
  wc.all (fun kv => bookmarkColumns.contains kv.1)

/-- Row filter for a valid where clause. -/
def rowMatches (r : Bookmark) (wc : List (String × String)) : Bool :=
  wc.all (fun kv => (fieldMatches r kv.1 kv.2).getD false)

/-- Everything the findAll call needs; `none` when the merged parameters or
the where clause would make the ORM raise, which the handler turns into the
catch-branch 400. -/
structure QueryPlan where
  limit : Nat
  offset : Nat
  col : String
  dir : SortDir
deriving DecidableEq

/-- Validate the merged control parameters and the where clause. -/
def findAllPlan (q : QueryParams) (wc : List (String × String)) : Option QueryPlan :=
  match jsPrimToNat q.limit, jsPrimToNat q.offset,
      parseSortDir (jsPrimToStr q.sort_dir) with
  | some l, some o, some d =>
    if bookmarkColumns.contains (jsPrimToStr q.sort_by) && validWhere wc then
      some { limit := l, offset := o, col := jsPrimToStr q.sort_by, dir := d }
    else none
  | _, _, _ => none

/-- The crash mode of the GET handler: explodeRequestQuery returned
undefined and reading `.query` on it throws a TypeError outside the try
block, so the async handler rejects without sending any response. -/
inductive GetCrash
  | typeErrorUndefined
deriving DecidableEq

/-- Body of the GET handler after the query was exploded: merge the control
bucket into the module-level defaults (Object.assign mutates them), run
findAll and count, then walk the three response statements — note there is
no return after the 401 and 400 branches, so the 200 call always runs in
the non-throwing path. Returns the new value of the module-level defaults
and the responses sent, in order. -/
def getHandlerCore (d : QueryParams) (ex : ExplodedQuery) (store : List Bookmark) :
    QueryParams × List Resp :=
  let q := objectAssign d ex.query
  match findAllPlan q ex.whereClause with
  | none => (q, [⟨400, .errBackend "Can\x27t get bookmarks"⟩])
  | some plan =>
    let matched := store.filter (fun r => rowMatches r ex.whereClause)
    let data := ((sortBookmarks plan.col plan.dir matched).drop plan.offset).take plan.limit
    let amount := matched.length
    let resps :=
      (if amount = 0 then
        [⟨401, .errBookmarks "No bookmark found with this query!"⟩]
       else []) ++
      (if jsFalsyArray data && amount != 0 then
        [⟨400, .errBackend "Bad order request!"⟩]
       else []) ++
      [⟨200, .listResult amount data⟩]
    (q, resps)

/-- The GET / handler. The destructuring of the explodeRequestQuery result
happens before the try block, so an undefined result crashes the handler. -/
def getHandler (d : QueryParams) (query : List (String × String))
    (store : List Bookmark) : Except GetCrash (QueryParams × List Resp) :=
  match explodeRequestQuery query with
  | none => .error .typeErrorUndefined
  | some ex => .ok (getHandlerCore d ex store)

/-- C2 (recording the defect): a GET / request with an empty query mapping
never reaches the success path — explodeRequestQuery returns undefined for
an empty mapping, and the handler reads `.query` on it outside the try
block, so it crashes without sending any response, instead of answering 200
with the first page and the total count. -/
theorem getHandler_empty_query_crashes (d : QueryParams) (store : List Bookmark) :
    getHandler d [] store = .error .typeErrorUndefined :=
  rfl

/-- C8: whenever the handler reaches its response section (the query was
non-empty and the merged parameters are accepted by the store) and the
matching count is zero, it sends the 401 bookmarks error AND, with no early
return, also the 200 success response, in that order within the same
invocation. -/
theorem getHandler_zero_matches_sends_401_and_200
    (d : QueryParams) (query : List (String × String)) (store : List Bookmark)
    (ex : ExplodedQuery) (plan : QueryPlan)
    (hex : explodeRequestQuery query = some ex)
    (hplan : findAllPlan (objectAssign d ex.query) ex.whereClause = some plan)
    (hcount : (store.filter (fun r => rowMatches r ex.whereClause)).length = 0) :
    getHandler d query store =
      .ok (objectAssign d ex.query,
        [⟨401, .errBookmarks "No bookmark found with this query!"⟩,
         ⟨200, .listResult 0 []⟩]) := by
  have hm : store.filter (fun r => rowMatches r ex.whereClause) = [] :=
    List.length_eq_zero.mp hcount
  have hsort : ∀ col dir, sortBookmarks col dir [] = [] := by
    intro col dir; cases dir <;> rfl
  simp only [getHandler, hex]
  simp only [getHandlerCore, hplan, hm, hsort, List.drop_nil, List.take_nil,
    List.length_nil, jsFalsyArray, Bool.false_and, if_pos rfl]
  simp

/-- Witness for C8: a filter-only query over an empty store. -/
theorem getHandler_zero_matches_sends_401_and_200_witness :
    getHandler defaultQueryParams [("link", "nope")] [] =
      .ok (objectAssign defaultQueryParams [],
        [⟨401, .errBookmarks "No bookmark found with this query!"⟩,
         ⟨200, .listResult 0 []⟩]) :=
  getHandler_zero_matches_sends_401_and_200 defaultQueryParams
    [("link", "nope")] [] { query := [], whereClause := [("link", "nope")] }
    { limit := 50, offset := 0, col := "createdAt", dir := .asc } rfl rfl rfl

/-- C9 counterexample: one GET request that supplies limit=10 overwrites
the module-level defaults object (Object.assign mutates its first
argument), leaving limit as the string "10" for every subsequent request —
the handler is not stateless across invocations. -/
theorem getHandler_mutates_module_defaults :
    getHandler defaultQueryParams [("limit", "10")] [] =
      .ok ({ defaultQueryParams with limit := JSPrim.str "10" },
        [⟨401, .errBookmarks "No bookmark found with this query!"⟩,
         ⟨200, .listResult 0 []⟩]) ∧
    ({ defaultQueryParams with limit := JSPrim.str "10" } ≠ defaultQueryParams) :=
  ⟨rfl, by decide⟩

/-- C9 amended: the list handler writes the supplied control parameters
into the module-level defaults object, so they persist for subsequent
requests; the defaults survive unchanged when the request supplies no
control parameter. (No other module state exists: the other handlers take
no module object at all in this embedding, mirroring the source.) -/
theorem getHandler_defaults_assigned
    (d : QueryParams) (query : List (String × String)) (store : List Bookmark)
    (ex : ExplodedQuery) (hex : explodeRequestQuery query = some ex) :
    (∃ resps, getHandler d query store = .ok (objectAssign d ex.query, resps)) ∧
    (ex.query = [] →
      ∃ resps, getHandler d query store = .ok (d, resps)) := by
  have hfst : (getHandlerCore d ex store).1 = objectAssign d ex.query := by
    simp only [getHandlerCore]
    cases findAllPlan (objectAssign d ex.query) ex.whereClause <;> rfl
  have h2 : getHandlerCore d ex store =
      (objectAssign d ex.query, (getHandlerCore d ex store).2) := by
    rw [← hfst]
  constructor
  · refine ⟨(getHandlerCore d ex store).2, ?_⟩
    simp only [getHandler, hex]
    exact congrArg Except.ok h2
  · intro hq
    refine ⟨(getHandlerCore d ex store).2, ?_⟩
    simp only [getHandler, hex]
    rw [hq] at h2
    exact congrArg Except.ok h2

/-- Witness for C9 amended: a filter-only query leaves the defaults as they
were. -/
theorem getHandler_defaults_assigned_witness :
    (∃ resps, getHandler defaultQueryParams [("link", "nope")] [] =
      .ok (objectAssign defaultQueryParams [], resps)) ∧
    (([] : List (String × String)) = [] →
      ∃ resps, getHandler defaultQueryParams [("link", "nope")] [] =
        .ok (defaultQueryParams, resps)) :=
  getHandler_defaults_assigned defaultQueryParams [("link", "nope")] []
    { query := [], whereClause := [("link", "nope")] } rfl

/-! ## Create handler (src/unnamed/part_001, router.post) -/

/-- Body of a POST request, with the fields the handler reads. -/
structure PostBody where
  link : Option String
  description : Option String
  favorites : Option Bool
deriving DecidableEq

/-- JS `v || dflt` on a possibly-undefined string: undefined and the empty
string are falsy. -/
def jsOrStr (v : Option String) (dflt : String) : String :=
  match v with
  | none => dflt
  | some s => if s = "" then dflt else s

/-- JS `v || dflt` on a possibly-undefined boolean. -/
def jsOrBool (v : Option Bool) (dflt : Bool) : Bool :=
  match v with
  | none => dflt
  | some b => if b then b else dflt

/-- The row `models.bookmarks.create` builds from the handler values: the
guid column takes the schema default (the fixed module-load uuid), the
other columns take the passed values, updatedAt stays null. -/
def buildRecord (schema : BookmarksSchema) (link description : String)
    (favorites : Bool) (createdAt : Int) : Bookmark :=
  { guid := guidDefault schema, link := link, createdAt := createdAt,
    updatedAt := none, description := some description, favorites := favorites }

/-- The insert behind `models.bookmarks.create`: guid is the primary key,
so inserting a row whose guid is already present raises a uniqueness
violation (`none`), which the handler catch turns into a 400. -/
def createBookmark (schema : BookmarksSchema) (store : List Bookmark)
    (link description : String) (favorites : Bool) (createdAt : Int) :
    Option (Bookmark × List Bookmark) :=
  let r := buildRecord schema link description favorites createdAt
  if store.any (fun b => b.guid = r.guid) then none
  else some (r, store ++ [r])

/-- First element of the per-attribute error array
(`validationResult.link[0]`). -/
def firstMsg (l : List LinkErrorMsg) : LinkErrorMsg :=
  l.headD (.text "")

/-- The POST / handler: validate the link; on failure answer 400 with the
first link error and stop; otherwise default description and favorites
with `||`, insert with `createdAt: + Date.now()` (the now argument models
Date.now()), and answer 200 with the guid and createdAt of the new row, or
400 when the insert fails. -/
def postHandler (schema : BookmarksSchema) (body : PostBody)
    (store : List Bookmark) (now : Int) : List Resp × List Bookmark :=
  match validateLink body.link with
  | some errs => ([⟨400, .errValidation (firstMsg errs)⟩], store)
  | none =>
    let favorites := jsOrBool body.favorites false
    let description := jsOrStr body.description ""
    match createBookmark schema store (body.link.getD "") description favorites now with
    | none => ([⟨400, .errBackend "Can\x27t create bookmark!"⟩], store)
    | some (r, store1) => ([⟨200, .createResult r.guid r.createdAt⟩], store1)

/-- C6: a POST with a valid link and no other body fields inserts a row
with empty description, favorites false and createdAt equal to the
Date.now() of the call, and answers 200 with exactly the guid and the
createdAt of that new row (provided the store can accept the schema default
guid, see C7). -/
theorem postHandler_minimal_body (schema : BookmarksSchema)
    (store : List Bookmark) (l : String) (now : Int)
    (hvalid : validateLink (some l) = none)
    (hfresh : store.all (fun b => b.guid != guidDefault schema) = true) :
    postHandler schema { link := some l, description := none, favorites := none }
        store now =
      ([⟨200, .createResult (guidDefault schema) now⟩],
       store ++ [{ guid := guidDefault schema, link := l, createdAt := now,
                   updatedAt := none, description := some "",
                   favorites := false }]) := by
  have hany : store.any (fun b => b.guid = guidDefault schema) = false := by
    rw [List.any_eq_false]
    intro b hb
    have := List.all_eq_true.mp hfresh b hb
    simpa using this
  simp only [postHandler, hvalid, jsOrBool, jsOrStr, Option.getD,
    createBookmark, buildRecord, hany, Bool.false_eq_true, if_false]

/-- Witness for C6: creating from an empty store with an accepted link. -/
theorem postHandler_minimal_body_witness :
    validateLink (some "https://example.com") = none ∧
    postHandler { moduleLoadUuid := "u-1" }
        { link := some "https://example.com", description := none,
          favorites := none } [] 1547459442106 =
      ([⟨200, .createResult (guidDefault { moduleLoadUuid := "u-1" }) 1547459442106⟩],
       [] ++ [{ guid := guidDefault { moduleLoadUuid := "u-1" },
                link := "https://example.com", createdAt := 1547459442106,
                updatedAt := none, description := some "",
                favorites := false }]) :=
  ⟨by decide,
   postHandler_minimal_body { moduleLoadUuid := "u-1" } [] "https://example.com"
     1547459442106 (by decide) (by decide)⟩

/-- C7 (recording the defect): the schema default guid is the single uuid()
value computed when the model module loads, so any two creates that rely on
the default produce the SAME guid — and the second insert into a store
already holding the first row fails the primary-key constraint instead of
creating a second record with a fresh identifier. -/
theorem createBookmark_default_guid_repeats (schema : BookmarksSchema)
    (store store1 : List Bookmark) (r : Bookmark)
    (l1 d1 : String) (f1 : Bool) (t1 : Int)
    (l2 d2 : String) (f2 : Bool) (t2 : Int)
    (h : createBookmark schema store l1 d1 f1 t1 = some (r, store1)) :
    (buildRecord schema l2 d2 f2 t2).guid = r.guid ∧
    createBookmark schema store1 l2 d2 f2 t2 = none := by
  simp only [createBookmark] at h
  by_cases hany :
      (store.any fun b => b.guid = (buildRecord schema l1 d1 f1 t1).guid) = true
  · rw [if_pos hany] at h
    cases h
  · rw [if_neg hany] at h
    have hpair := Option.some.inj h
    have h1 : buildRecord schema l1 d1 f1 t1 = r := congrArg Prod.fst hpair
    have h2 : store ++ [buildRecord schema l1 d1 f1 t1] = store1 :=
      congrArg Prod.snd hpair
    constructor
    · rw [← h1]; rfl
    · have hc : ((store ++ [buildRecord schema l1 d1 f1 t1]).any
          fun b => b.guid = (buildRecord schema l2 d2 f2 t2).guid) = true := by
        rw [List.any_append]
        have : ([buildRecord schema l1 d1 f1 t1].any
            fun b => b.guid = (buildRecord schema l2 d2 f2 t2).guid) = true := by
          simp [buildRecord, guidDefault]
        rw [this, Bool.or_true]
      rw [← h2]
      simp only [createBookmark]
      rw [if_pos hc]

/-- Witness for C7: two consecutive defaulted creates from an empty store. -/
theorem createBookmark_default_guid_repeats_witness :
    (buildRecord { moduleLoadUuid := "u-1" } "https://b.example" "" false 2).guid =
      (buildRecord { moduleLoadUuid := "u-1" } "https://a.example" "" false 1).guid ∧
    createBookmark { moduleLoadUuid := "u-1" }
      ([] ++ [buildRecord { moduleLoadUuid := "u-1" } "https://a.example" "" false 1])
      "https://b.example" "" false 2 = none :=
  createBookmark_default_guid_repeats { moduleLoadUuid := "u-1" } []
    ([] ++ [buildRecord { moduleLoadUuid := "u-1" } "https://a.example" "" false 1])
    (buildRecord { moduleLoadUuid := "u-1" } "https://a.example" "" false 1)
    "https://a.example" "" false 1 "https://b.example" "" false 2 rfl

/-! ## Update handler (src/unnamed/part_001, router.patch) -/

/-- Body of a PATCH request, with the mutable fields the handler forwards
to the partial update. -/
structure PatchBody where
  link : Option String
  description : Option String
  favorites : Option Bool
deriving DecidableEq

/-- The partial update `models.bookmarks.update(req.body, ...)` applies to
one matching row: every field present in the body overwrites the column,
absent fields are left alone. -/
def applyPatch (body : PatchBody) (r : Bookmark) : Bookmark :=
  { r with
    link := match body.link with
            | some l => l
            | none => r.link,
    description := match body.description with
                   | some d => some d
                   | none => r.description,
    favorites := match body.favorites with
                 | some f => f
                 | none => r.favorites }

/-- The update call: returns the affected-row count (sequelize resolves to
a one-element array around it, see `jsFalsyArray`) and the new store. -/
def updateWhereGuid (store : List Bookmark) (guid : String) (body : PatchBody) :
    Nat × List Bookmark :=
  (store.countP (fun r => r.guid = guid),
   store.map (fun r => if r.guid = guid then applyPatch body r else r))

/-- The destroy call: returns the number of deleted rows and the new
store. -/
def destroyWhereGuid (store : List Bookmark) (guid : String) :
    Nat × List Bookmark :=
  (store.countP (fun r => r.guid = guid),
   store.filter (fun r => r.guid ≠ guid))

/-- Shared tail of the PATCH handler: run the update; the result of
`models.bookmarks.update` is an array, hence truthy, so the `if (!query)`
400 branch is dead and the handler answers 200. Responses already queued
by the inert not-found guard come first. -/
def patchUpdate (guid : String) (body : PatchBody) (store : List Bookmark)
    (queued : List Resp) : List Resp × List Bookmark :=
  let (n, store1) := updateWhereGuid store guid body
  let updateResultFalsy := jsFalsyArray (store1.take n)
  (queued ++
    (if updateResultFalsy then [⟨400, .errBackend "Can\x27t patch bookmark!"⟩]
     else [⟨200, .okData⟩]),
   store1)

/-- The PATCH /:guid handler: calls chechGuidExistence WITHOUT await, so
`check` is a pending promise — truthy — and the 404 branch (which has no
return statement anyway) never fires; then validates the link only when
`req.body.link` is truthy (absent and empty strings skip validation), and
finally applies the whole body as a partial update. -/
def patchHandler (guid : String) (body : PatchBody) (store : List Bookmark) :
    List Resp × List Bookmark :=
  let check := chechGuidExistence store guid
  let queued : List Resp :=
    if jsTruthyPromise check = false then
      [⟨404, .errBookmarks ("404 Bookmark not found with UUID = " ++ guid)⟩]
    else []
  if jsTruthyOptStr body.link then
    match validateLink body.link with
    | some errs => (queued ++ [⟨400, .errValidation (firstMsg errs)⟩], store)
    | none => patchUpdate guid body store queued
  else patchUpdate guid body store queued

/-! ## Delete handler (src/unnamed/part_001, router.delete) -/

/-- The DELETE /:guid handler: calls chechGuidExistence WITHOUT await, so
`checkGuid` is a pending promise — truthy — and the 404 branch (the only
one with a return) never fires; destroy always runs, and since it resolves
to the plain number of deleted rows, zero deletions make `if (!query)`
answer 400 rather than 404. -/
def deleteHandler (guid : String) (store : List Bookmark) :
    List Resp × List Bookmark :=
  let checkGuid := chechGuidExistence store guid
  if jsTruthyPromise checkGuid = false then
    ([⟨404, .errBookmarks ("404 Bookmark not found with guid " ++ guid)⟩], store)
  else
    let (n, store1) := destroyWhereGuid store guid
    if n = 0 then ([⟨400, .errBackend "Can\x27t delete boorkmark!"⟩], store1)
    else ([⟨200, .okData⟩], store1)

/-- A concrete stored row used by the counterexamples. -/
def sampleBookmark : Bookmark :=
  { guid := "97f10d85-5d2f-4450-a0c4-307e8e9a991f", link := "https://ya.ru",
    createdAt := 1547459442106, updatedAt := none,
    description := some "desc", favorites := false }

/-- C4 counterexample: deleting an existing row answers 200 and removes the
row — the handler does not respond 404 and does not halt before the
deletion, because the unawaited promise returned by chechGuidExistence is
truthy, not falsy. -/
theorem deleteHandler_deletes_existing_record :
    deleteHandler "97f10d85-5d2f-4450-a0c4-307e8e9a991f" [sampleBookmark] =
      ([⟨200, .okData⟩], []) ∧
    (deleteHandler "97f10d85-5d2f-4450-a0c4-307e8e9a991f" [sampleBookmark]).1.all
      (fun r => r.status != 404) = true := by
  exact ⟨rfl, rfl⟩

/-- C4 amended: the existence check is invoked without await, so its result
is a pending promise, which is truthy; every DELETE therefore skips the
not-found branch and always performs the deletion (answering 200 when a row
was deleted and 400 otherwise), and every PATCH likewise never sends its
404 response. -/
theorem handlers_skip_not_found_branch (guid : String) (body : PatchBody)
    (store : List Bookmark) :
    ((deleteHandler guid store).1.all (fun r => r.status != 404) = true) ∧
    ((deleteHandler guid store).2 = store.filter (fun r => r.guid ≠ guid)) ∧
    ((patchHandler guid body store).1.all (fun r => r.status != 404) = true) := by
  refine ⟨?_, ?_, ?_⟩
  · simp only [deleteHandler, destroyWhereGuid, jsTruthyPromise]
    by_cases hn : store.countP (fun r => r.guid = guid) = 0 <;>
      simp [hn]
  · simp only [deleteHandler, destroyWhereGuid, jsTruthyPromise]
    by_cases hn : store.countP (fun r => r.guid = guid) = 0 <;>
      simp [hn]
  · simp only [patchHandler, jsTruthyPromise]
    by_cases hl : jsTruthyOptStr body.link = true
    · rw [if_pos hl]
      cases hv : validateLink body.link with
      | some errs => simp
      | none => simp [patchUpdate, jsFalsyArray]
    · rw [if_neg hl]
      simp [patchUpdate, jsFalsyArray]

/-- C10: a PATCH whose body carries link as the empty string skips link
validation — the empty string is falsy, so the validate call is never
reached — and the empty link is forwarded to the partial update, although
the validator would have rejected it. -/
theorem patchHandler_empty_link_skips_validation (guid : String)
    (desc : Option String) (fav : Option Bool) (store : List Bookmark) :
    patchHandler guid { link := some "", description := desc, favorites := fav }
        store =
      ([⟨200, .okData⟩],
       store.map (fun r =>
         if r.guid = guid then
           applyPatch { link := some "", description := desc, favorites := fav } r
         else r)) ∧
    (∀ r : Bookmark,
      (applyPatch { link := some "", description := desc, favorites := fav } r).link
        = "") ∧
    validateLink (some "") ≠ none := by
  refine ⟨?_, ?_, ?_⟩
  · simp [patchHandler, jsTruthyOptStr, jsTruthyPromise, patchUpdate,
      updateWhereGuid, jsFalsyArray]
  · intro r; rfl
  · intro hcontra
    have : validateLink (some "") =
        some [LinkErrorMsg.codeMsg "BOOKMARKS_INVALID_LINK" "Link invalid"] := by
      decide
    rw [this] at hcontra
    cases hcontra
